import Mathlib

/-!
Verification of the suitability-scoring core of the San Jose EIH
Site Explorer dashboard (`src/interactivemap.py`).

Numeric values (Python floats in the source) are modelled as rationals;
every concrete constant appearing in the source (`0.33`, `0.75`, `1000`,
`100`, ...) is exact in `ℚ`, so the arithmetic of the scorer is captured
without rounding artifacts.
-/

namespace InteractiveMap

/-- One row of the loaded dataset (`san_jose_eih_sites.csv` after
`dropna(subset=['latitude','longitude'])`, lines 53-54): name, coordinates,
the two proximity metrics in meters and the 0-100 sentiment score. -/
structure Site where
  site_name : String
  latitude : ℚ
  longitude : ℚ
  proximity_to_library : ℚ
  proximity_to_hospital : ℚ
  sentiment_score : ℚ
deriving Repr, DecidableEq

/-- A user-adjustable weight triple.  Every weight the program ever passes to
`calculate_iis` comes either from `st.slider(..., 0.0, 1.0, ...)` (lines
159-161) or from the constants `0.33 / 0.33 / 0.34` (lines 98-100), so each
component lies in the slider range `[0, 1]`.  The triple is NOT required to
sum to 1. -/
structure Weights where
  w_sent : ℚ
  w_lib : ℚ
  w_hosp : ℚ
  w_sent_mem : 0 ≤ w_sent ∧ w_sent ≤ 1
  w_lib_mem : 0 ≤ w_lib ∧ w_lib ≤ 1
  w_hosp_mem : 0 ≤ w_hosp ∧ w_hosp ≤ 1

/-- `calculate_iis` (lines 57-61): the Infrastructure Influence Score.

    def calculate_iis(row, w_sent, w_lib, w_hosp):
        norm_sent = row['sentiment_score'] / 100
        norm_lib = 1 - min(row['proximity_to_library'], 1000) / 1000
        norm_hosp = 1 - min(row['proximity_to_hospital'], 1000) / 1000
        return (w_sent * norm_sent) + (w_lib * norm_lib) + (w_hosp * norm_hosp)
-/
def calculate_iis (row : Site) (w_sent w_lib w_hosp : ℚ) : ℚ :=
  let norm_sent := row.sentiment_score / 100
  let norm_lib := 1 - min row.proximity_to_library 1000 / 1000
  let norm_hosp := 1 - min row.proximity_to_hospital 1000 / 1000
  (w_sent * norm_sent) + (w_lib * norm_lib) + (w_hosp * norm_hosp)

/-- `tag_site` (lines 103-109): the discrete suitability tag derived from a
score.  The returned strings carry the emoji prefixes present in the source:

    def tag_site(score):
        if score >= 0.75:
            return "🏅 Ideal"
        elif score >= 0.5:
            return "👍 Moderate"
        else:
            return "⚠️ Poor"
-/
def tag_site (score : ℚ) : String :=
  if score ≥ 0.75 then "🏅 Ideal"
  else if score ≥ 0.5 then "👍 Moderate"
  else "⚠️ Poor"

/-- An example site named by one string, with distinct raw fields; used for
concrete evaluations. -/
def mkSite (n : String) (lib hosp sent : ℚ) : Site :=
  { site_name := n, latitude := 37, longitude := -121
    proximity_to_library := lib, proximity_to_hospital := hosp
    sentiment_score := sent }

/-- The default weight triple `(0.33, 0.33, 0.34)`: the constants of the map
view (lines 98-100) and the slider defaults (lines 159-161). -/
def default_weights : Weights :=
  ⟨0.33, 0.33, 0.34, by norm_num, by norm_num, by norm_num⟩

/-- A row of the dataframe after the map view has added its derived columns:
the raw site plus `iis_score` (line 101) and `suitability_tag` (line 111). -/
structure ScoredSite where
  site : Site
  iis_score : ℚ
  suitability_tag : String
deriving Repr, DecidableEq

/-- The map-view scoring pass (lines 98-111): assigns `data['iis_score']`
row-wise via `calculate_iis` with the constants `0.33 / 0.33 / 0.34`, then
`data['suitability_tag']` by applying `tag_site` to the stored score. -/
def map_view (data : List Site) : List ScoredSite :=
  data.map (fun row =>
    { site := row
      iis_score := calculate_iis row 0.33 0.33 0.34
      suitability_tag := tag_site (calculate_iis row 0.33 0.33 0.34) })

/-- The citywide average IIS of tab 4 (line 215):
`data['iis_score'].mean()` over the column the map view assigned. -/
def citywide_avg_iis (data : List Site) : ℚ :=
  ((map_view data).map (fun r => r.iis_score)).sum / (data.length : ℚ)

/-- Tab 4's metric as a function of the slider state.  The script assigns
`data['iis_score']` with the constants `0.33 / 0.33 / 0.34` (lines 98-101)
— the tab-3 sliders (lines 159-161) never flow into that column — and line
215 averages that column.  The slider triple is an explicit argument here
precisely to record that it does not enter the result. -/
def rendered_citywide_avg (data : List Site) (_sliders : Weights) : ℚ :=
  citywide_avg_iis data

/-- Row selection of the AI-analysis tab (line 164):
`data[data['site_name'].isin(selected)]`.  The pandas boolean mask keeps the
dataset's row order (the order of `selected` is irrelevant beyond
membership) and yields a copy of the matching rows. -/
def selected_rows (data : List ScoredSite) (selected : List String) : List ScoredSite :=
  data.filter (fun r => selected.contains r.site.site_name)

/-- The rescoring of the selected copy (line 165): overwrites the copy's
`iis_score` column with scores under the slider weights. -/
def rescore (rows : List ScoredSite) (w_sent w_lib w_hosp : ℚ) : List ScoredSite :=
  rows.map (fun r => { r with iis_score := calculate_iis r.site w_sent w_lib w_hosp })

/-- Two-decimal rendering of a rational, for the `:.2f` conversion in the
f-string of line 172.  (Python formats a binary float with ties resolved
half-to-even; the tie behavior is irrelevant to every claim below, which
never compares rendered digits.) -/
def fmt2 (q : ℚ) : String :=
  let c : ℤ := round (q * 100)
  let sign := if c < 0 then "-" else ""
  let a := c.natAbs
  let frac := a % 100
  sign ++ toString (a / 100) ++ "." ++ (if frac < 10 then "0" else "") ++ toString frac

/-- One line of the site summary (lines 169-173): the f-string emitted per
row of the selected (rescored) copy.  Numeric raw fields are rendered with
the rational `toString` where Python prints a float — a display-only
difference no claim inspects. -/
def site_line (r : ScoredSite) : String :=
  "- " ++ r.site.site_name ++ ": Library " ++ toString r.site.proximity_to_library ++
  "m, Hospital " ++ toString r.site.proximity_to_hospital ++ "m, Sentiment " ++
  toString r.site.sentiment_score ++ ", IIS Score: " ++ fmt2 r.iis_score ++ "\n"

/-- The `site_summary` accumulation loop (lines 167-173): starts from the
empty string and appends one line per row, in row order. -/
def site_summary (rows : List ScoredSite) : String :=
  rows.foldl (fun acc r => acc ++ site_line r) ""

/-- The `weight_summary` f-string (lines 175-180). -/
def weight_summary (w_sent w_lib w_hosp : ℚ) : String :=
  "\nUser-defined weights:\n- Sentiment: " ++ toString w_sent ++
  "\n- Library Proximity: " ++ toString w_lib ++
  "\n- Hospital Proximity: " ++ toString w_hosp ++ "\n"

/-- The prompt f-string (lines 182-189), assembled around the site and
weight summaries. -/
def build_prompt (rows : List ScoredSite) (w_sent w_lib w_hosp : ℚ) : String :=
  "You are a policy analyst. Analyze the following Emergency Interim Housing (EIH) candidate sites based on proximity to infrastructure and resident sentiment. Recommend which sites seem more viable and why:\n\n" ++
  site_summary rows ++ "\n\nUser-defined priority:\n" ++
  weight_summary w_sent w_lib w_hosp ++
  "\n\nBe specific in your reasoning based on the numbers given."

/-- The error taxonomy named by the spec (§7).  The tab-3 block of the
source contains no raise statement, so the embedding below can only ever
produce `Except.ok`; the type exists to make claims about failure behavior
statable. -/
inductive CoreError where
  | MissingFieldError
  | PreconditionViolation
deriving Repr, DecidableEq

/-- The AI-analysis action (lines 163-189) over the scored dataset.  The
guard mirrors `if st.button("🚀 Run AI Analysis") and selected:` — Python
list truthiness, so the block runs only when the button is pressed AND the
selection is nonempty.  Inside, line 164 filters a copy (`selected_rows`),
line 165 rescores the copy under the slider weights (`rescore`), and lines
167-189 build the prompt from that copy; the full dataframe `data` is never
assigned to, so the state component is returned unchanged. -/
def run_ai_analysis (buttonPressed : Bool) (selected : List String)
    (data : List ScoredSite) (w_sent w_lib w_hosp : ℚ) :
    List ScoredSite × Except CoreError (Option String) :=
  if buttonPressed && !selected.isEmpty then
    let rescored := rescore (selected_rows data selected) w_sent w_lib w_hosp
    (data, Except.ok (some (build_prompt rescored w_sent w_lib w_hosp)))
  else
    (data, Except.ok none)

/-- Three concrete sites named `"A"`, `"B"`, `"C"`, in that dataset order. -/
def exA : Site := mkSite "A" 100 200 50

/-- Second site of the example dataset. -/
def exB : Site := mkSite "B" 300 400 60

/-- Third site of the example dataset. -/
def exC : Site := mkSite "C" 500 600 70

/-- The example dataset ordered `["A", "B", "C"]`. -/
def exData : List Site := [exA, exB, exC]

/-- A slider triple putting all weight on sentiment; used to separate
slider-dependent from slider-independent outputs. -/
def sentiment_only_weights : Weights :=
  ⟨1, 0, 0, by norm_num, by norm_num, by norm_num⟩

end InteractiveMap

namespace InteractiveMap

/-- Helper: mapping after filtering along a projection equals filtering the
mapped list — the row order is preserved throughout. -/
theorem map_filter_comm {α β : Type} (f : α → β) (p : β → Bool) (l : List α) :
    (l.filter (fun x => p (f x))).map f = (l.map f).filter p := by
  induction l with
  | nil => rfl
  | cons a t ih =>
    simp only [List.map_cons, List.filter_cons]
    cases h : p (f a)
    · simp [h, ih]
    · simp [h, ih]

/-- C1: the score is exactly the weighted sum of the three normalized
components, with the weights used verbatim (no normalization); and the
weights need not sum to 1, in which case the score can leave `[0,1]` —
witnessed by the in-range triple `(1,1,1)` on a perfect site, where the
score is `3`. -/
theorem c1_iis_formula :
    (∀ (row : Site) (w : Weights),
      calculate_iis row w.w_sent w.w_lib w.w_hosp =
        w.w_sent * (row.sentiment_score / 100) +
        w.w_lib * (1 - min row.proximity_to_library 1000 / 1000) +
        w.w_hosp * (1 - min row.proximity_to_hospital 1000 / 1000)) ∧
    (∃ (row : Site) (w : Weights),
      w.w_sent + w.w_lib + w.w_hosp ≠ 1 ∧ 1 < calculate_iis row w.w_sent w.w_lib w.w_hosp) := by
  constructor
  · intro row w
    simp only [calculate_iis]
  · refine ⟨mkSite "P" 0 0 100,
      ⟨1, 1, 1, by norm_num, by norm_num, by norm_num⟩, by norm_num, ?_⟩
    simp only [calculate_iis, mkSite]
    norm_num

/-- C2 counterexample: at a score of `1` the tag returned by the code is the
string `"🏅 Ideal"` — emoji prefix included — so it is not one of the three
strings `"Ideal"`, `"Moderate"`, `"Poor"` the claim names. -/
theorem c2_counterexample :
    tag_site 1 = "🏅 Ideal" ∧
    tag_site 1 ∉ (["Ideal", "Moderate", "Poor"] : List String) := by
  have h : tag_site 1 = "🏅 Ideal" := by norm_num [tag_site]
  refine ⟨h, ?_⟩
  rw [h]
  decide

/-- C2 (amended): the tag is exactly one of the strings `"🏅 Ideal"`,
`"👍 Moderate"`, `"⚠️ Poor"`: scores `≥ 0.75` tag `"🏅 Ideal"`, scores
`≥ 0.5` but below `0.75` tag `"👍 Moderate"`, all other scores tag
`"⚠️ Poor"`, each band's lower threshold inclusive. -/
theorem c2_tag_bands (score : ℚ) :
    (score ≥ 0.75 → tag_site score = "🏅 Ideal") ∧
    (0.5 ≤ score ∧ score < 0.75 → tag_site score = "👍 Moderate") ∧
    (score < 0.5 → tag_site score = "⚠️ Poor") ∧
    (tag_site score = "🏅 Ideal" ∨ tag_site score = "👍 Moderate" ∨
      tag_site score = "⚠️ Poor") := by
  refine ⟨fun h => ?_, fun h => ?_, fun h => ?_, ?_⟩
  · simp only [tag_site, if_pos h]
  · have h2 : ¬ (score ≥ 0.75) := not_le.mpr h.2
    simp only [tag_site, if_neg h2, if_pos (show score ≥ 0.5 from h.1)]
  · have h2 : ¬ (score ≥ 0.75) := not_le.mpr (by linarith)
    have h3 : ¬ (score ≥ 0.5) := not_le.mpr h
    simp only [tag_site, if_neg h2, if_neg h3]
  · simp only [tag_site]
    by_cases h1 : score ≥ 0.75
    · simp [if_pos h1]
    · by_cases h2 : score ≥ 0.5
      · simp [if_neg h1, if_pos h2]
      · simp [if_neg h1, if_neg h2]

/-- Witness for C2 (amended) at the band boundaries `0.75`, `0.5` and at
`0.49`. -/
theorem c2_tag_bands_witness :
    tag_site 0.75 = "🏅 Ideal" ∧ tag_site 0.5 = "👍 Moderate" ∧
      tag_site 0.49 = "⚠️ Poor" :=
  ⟨(c2_tag_bands 0.75).1 (by norm_num),
   (c2_tag_bands 0.5).2.1 ⟨by norm_num, by norm_num⟩,
   (c2_tag_bands 0.49).2.2.1 (by norm_num)⟩

/-- C3: for a site with sentiment in `[0,100]` and nonnegative proximities,
and a weight triple summing to 1 (each weight nonnegative by the slider
range), the score lies in `[0,1]`. -/
theorem c3_score_in_unit_interval (row : Site) (w : Weights)
    (hs0 : 0 ≤ row.sentiment_score) (hs1 : row.sentiment_score ≤ 100)
    (hl : 0 ≤ row.proximity_to_library) (hh : 0 ≤ row.proximity_to_hospital)
    (hsum : w.w_sent + w.w_lib + w.w_hosp = 1) :
    0 ≤ calculate_iis row w.w_sent w.w_lib w.w_hosp ∧
      calculate_iis row w.w_sent w.w_lib w.w_hosp ≤ 1 := by
  obtain ⟨hws0, _⟩ := w.w_sent_mem
  obtain ⟨hwl0, _⟩ := w.w_lib_mem
  obtain ⟨hwh0, _⟩ := w.w_hosp_mem
  have h1 : 0 ≤ row.sentiment_score / 100 := by positivity
  have h2 : row.sentiment_score / 100 ≤ 1 := by
    rw [div_le_one (by norm_num : (0:ℚ) < 100)]; exact hs1
  have hl0 : 0 ≤ min row.proximity_to_library 1000 :=
    le_min hl (by norm_num)
  have hl1 : min row.proximity_to_library 1000 ≤ 1000 := min_le_right _ _
  have hh0 : 0 ≤ min row.proximity_to_hospital 1000 :=
    le_min hh (by norm_num)
  have hh1 : min row.proximity_to_hospital 1000 ≤ 1000 := min_le_right _ _
  have h3 : 0 ≤ 1 - min row.proximity_to_library 1000 / 1000 := by
    have : min row.proximity_to_library 1000 / 1000 ≤ 1 := by
      rw [div_le_one (by norm_num : (0:ℚ) < 1000)]; exact hl1
    linarith
  have h4 : 1 - min row.proximity_to_library 1000 / 1000 ≤ 1 := by
    have : 0 ≤ min row.proximity_to_library 1000 / 1000 := by positivity
    linarith
  have h5 : 0 ≤ 1 - min row.proximity_to_hospital 1000 / 1000 := by
    have : min row.proximity_to_hospital 1000 / 1000 ≤ 1 := by
      rw [div_le_one (by norm_num : (0:ℚ) < 1000)]; exact hh1
    linarith
  have h6 : 1 - min row.proximity_to_hospital 1000 / 1000 ≤ 1 := by
    have : 0 ≤ min row.proximity_to_hospital 1000 / 1000 := by positivity
    linarith
  simp only [calculate_iis]
  constructor
  · have a1 := mul_nonneg hws0 h1
    have a2 := mul_nonneg hwl0 h3
    have a3 := mul_nonneg hwh0 h5
    linarith
  · have a1 := mul_le_of_le_one_right hws0 h2
    have a2 := mul_le_of_le_one_right hwl0 h4
    have a3 := mul_le_of_le_one_right hwh0 h6
    linarith

/-- Witness for C3 at a concrete site (library 200m, hospital 1500m,
sentiment 80) under the default weights. -/
theorem c3_score_in_unit_interval_witness :
    0 ≤ calculate_iis (mkSite "W" 200 1500 80)
        default_weights.w_sent default_weights.w_lib default_weights.w_hosp ∧
    calculate_iis (mkSite "W" 200 1500 80)
        default_weights.w_sent default_weights.w_lib default_weights.w_hosp ≤ 1 :=
  c3_score_in_unit_interval (mkSite "W" 200 1500 80) default_weights
    (by norm_num [mkSite]) (by norm_num [mkSite]) (by norm_num [mkSite])
    (by norm_num [mkSite]) (by norm_num [default_weights])

/-- C7: with proximities and weights held fixed, a site with a larger (or
equal) sentiment score never gets a smaller score — the sentiment weight is
nonnegative by the slider range. -/
theorem c7_monotone_in_sentiment (s s' : Site) (w : Weights)
    (hsent : s.sentiment_score ≤ s'.sentiment_score)
    (hlib : s'.proximity_to_library = s.proximity_to_library)
    (hhosp : s'.proximity_to_hospital = s.proximity_to_hospital) :
    calculate_iis s w.w_sent w.w_lib w.w_hosp ≤
      calculate_iis s' w.w_sent w.w_lib w.w_hosp := by
  obtain ⟨hw0, _⟩ := w.w_sent_mem
  simp only [calculate_iis, hlib, hhosp]
  have key : w.w_sent * (s.sentiment_score / 100) ≤
      w.w_sent * (s'.sentiment_score / 100) := by
    apply mul_le_mul_of_nonneg_left _ hw0
    exact (div_le_div_iff_of_pos_right (by norm_num)).mpr hsent
  linarith

/-- Witness for C7: raising sentiment from 40 to 90 on otherwise identical
sites, under the default weights. -/
theorem c7_monotone_in_sentiment_witness :
    calculate_iis (mkSite "S" 300 400 40)
        default_weights.w_sent default_weights.w_lib default_weights.w_hosp ≤
    calculate_iis (mkSite "S" 300 400 90)
        default_weights.w_sent default_weights.w_lib default_weights.w_hosp :=
  c7_monotone_in_sentiment (mkSite "S" 300 400 40) (mkSite "S" 300 400 90)
    default_weights (by norm_num [mkSite]) (by norm_num [mkSite])
    (by norm_num [mkSite])

/-- C8: for any library proximity `≥ 1000` the score equals the score of the
same site with the library proximity replaced by exactly 1000. -/
theorem c8_library_clamp (row : Site) (w : Weights)
    (h : 1000 ≤ row.proximity_to_library) :
    calculate_iis row w.w_sent w.w_lib w.w_hosp =
      calculate_iis { row with proximity_to_library := 1000 }
        w.w_sent w.w_lib w.w_hosp := by
  simp only [calculate_iis]
  rw [min_eq_right h]
  simp

/-- Witness for C8 at library proximity 1500m. -/
theorem c8_library_clamp_witness :
    calculate_iis (mkSite "C" 1500 250 60)
        default_weights.w_sent default_weights.w_lib default_weights.w_hosp =
    calculate_iis { mkSite "C" 1500 250 60 with proximity_to_library := 1000 }
        default_weights.w_sent default_weights.w_lib default_weights.w_hosp :=
  c8_library_clamp (mkSite "C" 1500 250 60) default_weights
    (by norm_num [mkSite])

/-- C9 counterexample: at the claim's concrete input the score is 1 but the
tag the code produces is `"🏅 Ideal"`, not the string `"Ideal"`. -/
theorem c9_counterexample :
    tag_site (calculate_iis (mkSite "S9" 0 0 100)
      default_weights.w_sent default_weights.w_lib default_weights.w_hosp) ≠
      "Ideal" := by
  have h : calculate_iis (mkSite "S9" 0 0 100)
      default_weights.w_sent default_weights.w_lib default_weights.w_hosp = 1 := by
    norm_num [calculate_iis, mkSite, default_weights]
  rw [h]
  have h2 : tag_site 1 = "🏅 Ideal" := by norm_num [tag_site]
  rw [h2]
  decide

/-- C9 (amended): the site with sentiment 100 and both proximities 0, scored
under weights `(0.33, 0.33, 0.34)`, gets `iis = 0.33 + 0.33 + 0.34 = 1.00`
and tag `"🏅 Ideal"`. -/
theorem c9_concrete_case :
    calculate_iis (mkSite "S9" 0 0 100)
        default_weights.w_sent default_weights.w_lib default_weights.w_hosp = 1 ∧
    tag_site (calculate_iis (mkSite "S9" 0 0 100)
        default_weights.w_sent default_weights.w_lib default_weights.w_hosp) =
      "🏅 Ideal" := by
  constructor
  · norm_num [calculate_iis, mkSite, default_weights]
  · norm_num [calculate_iis, mkSite, default_weights, tag_site]

/-- C4 counterexample: selecting `["B", "A"]` from the dataset ordered
`["A", "B", "C"]`, the rows the summary loop iterates are named
`["A", "B"]` — dataset order — not `["B", "A"]` as the claim states. -/
theorem c4_counterexample :
    (selected_rows (map_view exData) ["B", "A"]).map (fun r => r.site.site_name) =
      ["A", "B"] ∧ (["A", "B"] : List String) ≠ ["B", "A"] := by
  constructor
  · rfl
  · decide

/-- C4 (amended): the site lines of the prompt summary follow the original
dataset order restricted to the selected names, not the order of the
selection list: the summary appends lines in row-list order; the selected
rows' names are the dataset's names filtered by membership in the selection
(independent of the selection's order); rescoring preserves names and
order; and concretely, selecting `["B", "A"]` from a dataset ordered
`["A", "B", "C"]` lists A before B. -/
theorem c4_summary_order :
    (∀ rows : List ScoredSite,
      site_summary rows = (rows.map site_line).foldl (fun a b => a ++ b) "") ∧
    (∀ (data : List ScoredSite) (selected : List String),
      (selected_rows data selected).map (fun r => r.site.site_name) =
        (data.map (fun r => r.site.site_name)).filter
          (fun n => selected.contains n)) ∧
    (∀ (rows : List ScoredSite) (w_sent w_lib w_hosp : ℚ),
      (rescore rows w_sent w_lib w_hosp).map (fun r => r.site.site_name) =
        rows.map (fun r => r.site.site_name)) ∧
    (rescore (selected_rows (map_view exData) ["B", "A"]) 0.5 0.25 0.25).map
        (fun r => r.site.site_name) = ["A", "B"] := by
  refine ⟨?_, ?_, ?_, ?_⟩
  · intro rows
    rw [site_summary]
    exact (List.foldl_map _ _ _ _).symm
  · intro data selected
    simp only [selected_rows]
    exact map_filter_comm (fun r => r.site.site_name)
      (fun n => selected.contains n) data
  · intro rows w1 w2 w3
    simp [rescore, List.map_map]
  · rfl

/-- C5 counterexample: pressing the button with an empty selection produces
no error at all — the result is `Except.ok none`, not a
`PreconditionViolation`. -/
theorem c5_counterexample :
    (run_ai_analysis true [] (map_view exData) 0.33 0.33 0.34).2 =
      Except.ok none ∧
    (run_ai_analysis true [] (map_view exData) 0.33 0.33 0.34).2 ≠
      Except.error CoreError.PreconditionViolation := by
  refine ⟨rfl, ?_⟩
  intro h
  rw [show (run_ai_analysis true [] (map_view exData) 0.33 0.33 0.34).2 =
      Except.ok none from rfl] at h
  exact Except.noConfusion h

/-- C5 (amended): with an empty selection the guard
`if st.button(...) and selected:` skips the whole analysis block: for any
button state, dataset and weights, no prompt is built, no error is raised,
and the state is untouched. -/
theorem c5_empty_selection_skips (button : Bool) (data : List ScoredSite)
    (w_sent w_lib w_hosp : ℚ) :
    run_ai_analysis button [] data w_sent w_lib w_hosp =
      (data, Except.ok none) := by
  simp [run_ai_analysis]

/-- C6 counterexample: on a one-site dataset (sentiment 0, both proximities
0) with the sliders moved to `(1, 0, 0)`, the displayed citywide average IIS
is `0.67` — computed under the fixed triple `(0.33, 0.33, 0.34)` — while the
average under the current slider weights is `0`. -/
theorem c6_counterexample :
    rendered_citywide_avg [mkSite "S6" 0 0 0] sentiment_only_weights ≠
      (([mkSite "S6" 0 0 0].map (fun r =>
          calculate_iis r sentiment_only_weights.w_sent
            sentiment_only_weights.w_lib sentiment_only_weights.w_hosp)).sum /
        (([mkSite "S6" 0 0 0] : List Site).length : ℚ)) := by
  norm_num [rendered_citywide_avg, citywide_avg_iis, map_view, mkSite,
    calculate_iis, sentiment_only_weights, min_def]

/-- C6 (amended): every displayed score is recomputed on each pass as a
pure function of the raw fields and the weight triple used at its
computation site — but the map view and the citywide average always use the
fixed triple `(0.33, 0.33, 0.34)`, so they are invariant under any slider
change, while only the prompt's per-site scores track the slider triple. -/
theorem c6_scores_recomputed_per_pass :
    (∀ (data : List Site) (w w' : Weights),
      rendered_citywide_avg data w = rendered_citywide_avg data w') ∧
    (∀ data : List Site,
      citywide_avg_iis data =
        (data.map (fun r => calculate_iis r 0.33 0.33 0.34)).sum /
          (data.length : ℚ)) ∧
    (∀ data : List Site,
      (map_view data).map (fun r => r.suitability_tag) =
        data.map (fun r => tag_site (calculate_iis r 0.33 0.33 0.34))) ∧
    (∀ (data : List ScoredSite) (selected : List String) (w_sent w_lib w_hosp : ℚ),
      (rescore (selected_rows data selected) w_sent w_lib w_hosp).map
          (fun r => r.iis_score) =
        (selected_rows data selected).map
          (fun r => calculate_iis r.site w_sent w_lib w_hosp)) := by
  refine ⟨fun data w w' => rfl, ?_, ?_, ?_⟩
  · intro data
    simp [citywide_avg_iis, map_view, List.map_map, Function.comp_def]
  · intro data
    simp [map_view, List.map_map, Function.comp_def]
  · intro data selected w1 w2 w3
    simp [rescore, List.map_map]

/-- C10: building the AI-analysis prompt rescores only the filtered copy of
the dataset; the full scored dataframe — the `iis_score` and
`suitability_tag` columns the map view computed included — is unchanged by
prompt construction, for every selection, button state and weight triple. -/
theorem c10_prompt_construction_frame (data : List Site) (selected : List String)
    (button : Bool) (w_sent w_lib w_hosp : ℚ) :
    (run_ai_analysis button selected (map_view data) w_sent w_lib w_hosp).1 =
      map_view data := by
  simp only [run_ai_analysis]
  split <;> rfl

end InteractiveMap
